import Mathlib

/-!
Verification of the ANGLE Vulkan cache/descriptor header
(src/libANGLE/renderer/vulkan/vk_cache_utils.h).

The development shallowly embeds the data model and the operations of the
header: packed descriptor values become Lean structures with an explicit byte
image, stateful caches become pure functions on explicit state values, and the
unsigned 64-bit counters become naturals reduced modulo 2 to the 64.  Methods
whose bodies live in the missing vk_cache_utils.cpp are modelled from the
specification and are marked as such in their doc comments.
-/

/-- The modulus of the uint64 arithmetic used by the cache counters. -/
def kUint64Modulus : Nat := 2 ^ 64

/-- CacheStats: the hit and miss counters of a cache.  In the source both
counters are uint64 values; we keep naturals and apply the modulus wherever
the source performs uint64 arithmetic. -/
structure CacheStats where
  hitCount : Nat
  missCount : Nat
deriving DecidableEq

/-- CacheStats::hit, which executes mHitCount++ (uint64 increment). -/
def CacheStats.hit (s : CacheStats) : CacheStats :=
  { s with hitCount := (s.hitCount + 1) % kUint64Modulus }

/-- CacheStats::miss, which executes mMissCount++ (uint64 increment). -/
def CacheStats.miss (s : CacheStats) : CacheStats :=
  { s with missCount := (s.missCount + 1) % kUint64Modulus }

/-- CacheStats::accumulate: adds the argument counters onto this object
with uint64 additions.  The argument is taken by const reference in the
source and is not modified by this operation. -/
def CacheStats.accumulate (dst src : CacheStats) : CacheStats :=
  { hitCount := (dst.hitCount + src.hitCount) % kUint64Modulus
    missCount := (dst.missCount + src.missCount) % kUint64Modulus }

/-- CacheStats::reset, which zeroes both counters. -/
def CacheStats.resetStats : CacheStats := { hitCount := 0, missCount := 0 }

/-- CacheStats::getHitRatio.  The source computes
mHitCount + mMissCount in uint64 arithmetic (hence the modulus), compares the
wrapped sum with zero, and otherwise divides.  The real-valued division is
modelled exactly over the rationals. -/
def CacheStats.getHitRatio (s : CacheStats) : Rat :=
  if (s.hitCount + s.missCount) % kUint64Modulus = 0 then 0
  else (s.hitCount : Rat) / (((s.hitCount + s.missCount) % kUint64Modulus : Nat) : Rat)

/-- HasCacheStats::accumulateCacheStats: reports this cache's counters to an
aggregator (which merges them additively via CacheStats::accumulate) and then
resets this cache's counters.  Returns the new aggregator value and the new
value of this cache's counters. -/
def accumulateCacheStats (accumulator source : CacheStats) : CacheStats × CacheStats :=
  (accumulator.accumulate source, CacheStats.resetStats)

/-- C10: the claim as stated fails on the code because the division-by-zero
guard tests the uint64-wrapped sum of the counters.  At
hitCount = missCount = 2 to the 63 the wrapped sum is zero, the guard fires,
and getHitRatio returns 0 even though neither counter is zero and the claimed
value hitCount / (hitCount + missCount) is one half. -/
theorem getHitRatio_overflow_counterexample :
    (CacheStats.mk (2 ^ 63) (2 ^ 63)).hitCount ≠ 0 ∧
    (CacheStats.mk (2 ^ 63) (2 ^ 63)).missCount ≠ 0 ∧
    (CacheStats.mk (2 ^ 63) (2 ^ 63)).getHitRatio = 0 ∧
    ((CacheStats.mk (2 ^ 63) (2 ^ 63)).hitCount : Rat) /
        (((CacheStats.mk (2 ^ 63) (2 ^ 63)).hitCount +
          (CacheStats.mk (2 ^ 63) (2 ^ 63)).missCount : Nat) : Rat) = 1 / 2 ∧
    (0 : Rat) ≠ 1 / 2 := by
  refine ⟨by norm_num, by norm_num, ?_, ?_, by norm_num⟩
  · norm_num [CacheStats.getHitRatio, kUint64Modulus]
  · norm_num

/-- C10 (amended): getHitRatio is total; it returns 0 when both counters are
zero; and whenever the true sum of the counters does not overflow uint64
(in particular for all counter values reachable by increments from zero),
it returns hitCount / (hitCount + missCount), a rational in the unit
interval. -/
theorem getHitRatio_spec (s : CacheStats)
    (hsum : s.hitCount + s.missCount < kUint64Modulus) :
    (s.hitCount = 0 ∧ s.missCount = 0 → s.getHitRatio = 0) ∧
    (¬(s.hitCount = 0 ∧ s.missCount = 0) →
      s.getHitRatio = (s.hitCount : Rat) / ((s.hitCount + s.missCount : Nat) : Rat) ∧
      0 ≤ s.getHitRatio ∧ s.getHitRatio ≤ 1) := by
  have hmod : (s.hitCount + s.missCount) % kUint64Modulus = s.hitCount + s.missCount :=
    Nat.mod_eq_of_lt hsum
  constructor
  · rintro ⟨h1, h2⟩
    simp [CacheStats.getHitRatio, hmod, h1, h2]
  · intro hne
    have hne0 : s.hitCount + s.missCount ≠ 0 := by omega
    have hpos : 0 < s.hitCount + s.missCount := by omega
    have hval : s.getHitRatio = (s.hitCount : Rat) / ((s.hitCount + s.missCount : Nat) : Rat) := by
      simp [CacheStats.getHitRatio, hmod, hne0]
    refine ⟨hval, ?_, ?_⟩
    · rw [hval]
      positivity
    · rw [hval]
      rw [div_le_one (by exact_mod_cast hpos)]
      exact_mod_cast Nat.le_add_right s.hitCount s.missCount

/-- Witness for getHitRatio_spec at hitCount = 3, missCount = 1. -/
theorem getHitRatio_spec_witness :
    ¬((CacheStats.mk 3 1).hitCount = 0 ∧ (CacheStats.mk 3 1).missCount = 0) ∧
    (CacheStats.mk 3 1).getHitRatio =
      ((CacheStats.mk 3 1).hitCount : Rat) /
        (((CacheStats.mk 3 1).hitCount + (CacheStats.mk 3 1).missCount : Nat) : Rat) := by
  have h := (getHitRatio_spec (CacheStats.mk 3 1) (by norm_num [kUint64Modulus])).2
  exact ⟨by simp, (h (by simp)).1⟩

/-- C3: draining a cache's statistics into an aggregator adds the source
counters onto the aggregator counters and resets the source to zero, so a
second drain of the same cache contributes nothing (no double counting).
The overflow hypotheses state that the uint64 additions do not wrap. -/
theorem accumulateCacheStats_drain (accumulator source : CacheStats)
    (hh : accumulator.hitCount + source.hitCount < kUint64Modulus)
    (hm : accumulator.missCount + source.missCount < kUint64Modulus) :
    (accumulateCacheStats accumulator source).1.hitCount =
        accumulator.hitCount + source.hitCount ∧
    (accumulateCacheStats accumulator source).1.missCount =
        accumulator.missCount + source.missCount ∧
    (accumulateCacheStats accumulator source).2 = CacheStats.mk 0 0 ∧
    accumulateCacheStats (accumulateCacheStats accumulator source).1
        (accumulateCacheStats accumulator source).2 =
      ((accumulateCacheStats accumulator source).1, CacheStats.mk 0 0) := by
  refine ⟨?_, ?_, rfl, ?_⟩
  · simp [accumulateCacheStats, CacheStats.accumulate, Nat.mod_eq_of_lt hh]
  · simp [accumulateCacheStats, CacheStats.accumulate, Nat.mod_eq_of_lt hm]
  · simp [accumulateCacheStats, CacheStats.accumulate, CacheStats.resetStats,
      Nat.mod_eq_of_lt hh, Nat.mod_eq_of_lt hm]

/-- Witness for accumulateCacheStats_drain at aggregator (10, 20) and
source (3, 4). -/
theorem accumulateCacheStats_drain_witness :
    (accumulateCacheStats (CacheStats.mk 10 20) (CacheStats.mk 3 4)).1.hitCount = 13 ∧
    (accumulateCacheStats (CacheStats.mk 10 20) (CacheStats.mk 3 4)).1.missCount = 24 ∧
    (accumulateCacheStats (CacheStats.mk 10 20) (CacheStats.mk 3 4)).2 = CacheStats.mk 0 0 := by
  have h := accumulateCacheStats_drain (CacheStats.mk 10 20) (CacheStats.mk 3 4)
    (by norm_num [kUint64Modulus]) (by norm_num [kUint64Modulus])
  exact ⟨h.1, h.2.1, h.2.2.1⟩

/-- Lookup in the association-list model of the unordered_map payloads.
std::unordered_map::find returns the mapped value of the unique entry whose
key equals the query key, or end() (here: none). -/
def lookupEntry {K V : Type} [DecidableEq K] (k : K) : List (K × V) → Option V
  | [] => none
  | e :: rest => if e.1 = k then some e.2 else lookupEntry k rest

/-- The state of a single-level object cache such as GraphicsPipelineCache:
a descriptor-to-object map plus hit/miss counters. -/
structure ObjectCache (K V : Type) where
  payload : List (K × V)
  cacheStats : CacheStats

/-- GraphicsPipelineCache::getPipeline.  The lookup and the counter updates
come from the header: on a find() hit the stored object is returned and the
hit counter incremented; on a miss the miss counter is incremented first and
insertPipeline is invoked.  The factory outcome (desc.initializePipeline) is
passed in as an Except value.

The miss path body (GraphicsPipelineCache::insertPipeline) is not part of the
given source.  Modelled from the spec: insertPipeline invokes the factory;
a typed failure is propagated to the caller and nothing is inserted (cache
state unchanged, no partial insert); on success the new object is inserted
under the exact key and returned. -/
def getPipeline {K V E : Type} [DecidableEq K] (factory : Except E V)
    (c : ObjectCache K V) (k : K) : Except E V × ObjectCache K V :=
  match lookupEntry k c.payload with
  | some v => (Except.ok v, { c with cacheStats := c.cacheStats.hit })
  | none =>
    let missed : ObjectCache K V := { c with cacheStats := c.cacheStats.miss }
    match factory with
    | Except.ok v => (Except.ok v, { missed with payload := (k, v) :: missed.payload })
    | Except.error e => (Except.error e, missed)

/-- C2: after a get(k) that misses with a succeeding factory, a second get
with an equal key hits: it returns the very object stored by the first call,
leaves the map unchanged, and across the two calls the miss counter grew by
exactly one and the hit counter by exactly one.  The two overflow hypotheses
state that the uint64 counter increments do not wrap. -/
theorem getPipeline_second_get_hits {K V E : Type} [DecidableEq K]
    (c : ObjectCache K V) (k kk : K) (v : V) (factory1 factory2 : Except E V)
    (hfac : factory1 = Except.ok v)
    (hmiss : lookupEntry k c.payload = none)
    (hkey : kk = k)
    (hh : c.cacheStats.hitCount + 1 < kUint64Modulus)
    (hm : c.cacheStats.missCount + 1 < kUint64Modulus) :
    (getPipeline factory1 c k).1 = Except.ok v ∧
    lookupEntry kk (getPipeline factory1 c k).2.payload = some v ∧
    (getPipeline factory2 (getPipeline factory1 c k).2 kk).1 = Except.ok v ∧
    (getPipeline factory2 (getPipeline factory1 c k).2 kk).2.payload =
      (getPipeline factory1 c k).2.payload ∧
    (getPipeline factory2 (getPipeline factory1 c k).2 kk).2.cacheStats.hitCount =
      c.cacheStats.hitCount + 1 ∧
    (getPipeline factory2 (getPipeline factory1 c k).2 kk).2.cacheStats.missCount =
      c.cacheStats.missCount + 1 := by
  subst hkey
  subst hfac
  have hfound : lookupEntry kk ((kk, v) :: c.payload) = some v := by
    simp [lookupEntry]
  refine ⟨?_, ?_, ?_, ?_, ?_, ?_⟩ <;>
    simp [getPipeline, hmiss, hfound, CacheStats.hit, CacheStats.miss,
      Nat.mod_eq_of_lt hh, Nat.mod_eq_of_lt hm]

/-- Witness for getPipeline_second_get_hits on an empty natural-keyed cache. -/
theorem getPipeline_second_get_hits_witness :
    (getPipeline (Except.ok 5 : Except Unit Nat)
      (ObjectCache.mk [] (CacheStats.mk 0 0)) 3).1 = Except.ok 5 ∧
    lookupEntry 3
      (getPipeline (Except.ok 5 : Except Unit Nat)
        (ObjectCache.mk [] (CacheStats.mk 0 0)) 3).2.payload = some 5 ∧
    (getPipeline (Except.ok 9 : Except Unit Nat)
      (getPipeline (Except.ok 5 : Except Unit Nat)
        (ObjectCache.mk [] (CacheStats.mk 0 0)) 3).2 3).1 = Except.ok 5 ∧
    (getPipeline (Except.ok 9 : Except Unit Nat)
      (getPipeline (Except.ok 5 : Except Unit Nat)
        (ObjectCache.mk [] (CacheStats.mk 0 0)) 3).2 3).2.payload =
      (getPipeline (Except.ok 5 : Except Unit Nat)
        (ObjectCache.mk [] (CacheStats.mk 0 0)) 3).2.payload ∧
    (getPipeline (Except.ok 9 : Except Unit Nat)
      (getPipeline (Except.ok 5 : Except Unit Nat)
        (ObjectCache.mk [] (CacheStats.mk 0 0)) 3).2 3).2.cacheStats.hitCount = 0 + 1 ∧
    (getPipeline (Except.ok 9 : Except Unit Nat)
      (getPipeline (Except.ok 5 : Except Unit Nat)
        (ObjectCache.mk [] (CacheStats.mk 0 0)) 3).2 3).2.cacheStats.missCount = 0 + 1 :=
  getPipeline_second_get_hits (ObjectCache.mk [] (CacheStats.mk 0 0)) 3 3 5
    (Except.ok 5 : Except Unit Nat) (Except.ok 9) rfl
    (by simp [lookupEntry]) rfl (by norm_num [kUint64Modulus]) (by norm_num [kUint64Modulus])

/-- C9: when the lookup misses and the factory fails, the typed failure is
returned to the caller and the map contents are exactly what they were before
the call: no entry is inserted for the key and no stored entry is modified or
removed. -/
theorem getPipeline_factory_failure {K V E : Type} [DecidableEq K]
    (c : ObjectCache K V) (k : K) (e : E)
    (hmiss : lookupEntry k c.payload = none) :
    (getPipeline (V := V) (Except.error e) c k).1 = Except.error e ∧
    (getPipeline (V := V) (Except.error e) c k).2.payload = c.payload := by
  constructor <;> simp [getPipeline, hmiss]

/-- Witness for getPipeline_factory_failure on a one-entry natural-keyed
cache probed with a fresh key. -/
theorem getPipeline_factory_failure_witness :
    (getPipeline (V := Nat) (Except.error 7)
      (ObjectCache.mk [(1, 11)] (CacheStats.mk 4 2)) 3).1 = Except.error 7 ∧
    (getPipeline (V := Nat) (Except.error 7)
      (ObjectCache.mk [(1, 11)] (CacheStats.mk 4 2)) 3).2.payload = [(1, 11)] :=
  getPipeline_factory_failure (ObjectCache.mk [(1, 11)] (CacheStats.mk 4 2)) 3 7
    (by simp [lookupEntry])

/-- Byte sizes of the members of GraphicsPipelineDesc, as checked by the
static size assertions of the header. -/
def kVertexInputAttributesSize : Nat := 96

/-- Byte size of RenderPassDesc (static_assert in the header). -/
def kRenderPassDescSize : Nat := 12

/-- Byte size of PackedRasterizationAndMultisampleStateInfo. -/
def kPackedRasterizationAndMultisampleStateSize : Nat := 32

/-- Byte size of PackedDepthStencilStateInfo. -/
def kPackedDepthStencilStateSize : Nat := 20

/-- Byte size of PackedInputAssemblyAndColorBlendStateInfo. -/
def kPackedInputAssemblyAndColorBlendStateSize : Nat := 56

/-- Byte size of VkViewport: six 32-bit floats. -/
def kVkViewportSize : Nat := 24

/-- Byte size of PackedScissor: four uint16 fields. -/
def kPackedScissorSize : Nat := 8

/-- Byte size of PackedExtent: two uint16 fields. -/
def kPackedExtentSize : Nat := 4

/-- kGraphicsPipelineDescSumOfSizes: the exact total byte size of
GraphicsPipelineDesc (no padding, enforced by static_assert). -/
def kGraphicsPipelineDescSumOfSizes : Nat :=
  kVertexInputAttributesSize + kRenderPassDescSize +
  kPackedRasterizationAndMultisampleStateSize + kPackedDepthStencilStateSize +
  kPackedInputAssemblyAndColorBlendStateSize + kVkViewportSize +
  kPackedScissorSize + kPackedExtentSize

/-- kGraphicsPipelineDirtyBitBytes: each dirty bit covers 4 bytes. -/
def kGraphicsPipelineDirtyBitBytes : Nat := 4

/-- kNumGraphicsPipelineDirtyBits: the number of 4-byte ranges in the
description, hence the number of dirty bits. -/
def kNumGraphicsPipelineDirtyBits : Nat :=
  kGraphicsPipelineDescSumOfSizes / kGraphicsPipelineDirtyBitBytes

/-- GraphicsPipelineTransitionBits: the set of dirty bits, each marking one
4-byte range of the description. -/
abbrev GraphicsPipelineTransitionBits := Finset (Fin kNumGraphicsPipelineDirtyBits)

/-- The word image of a GraphicsPipelineDesc for transition comparisons:
GraphicsPipelineTransitionMatch reads the description through
getPtr of uint32, i.e. as an array of kNumGraphicsPipelineDirtyBits 32-bit
words.  We model the description at exactly that granularity. -/
abbrev GraphicsPipelineDescWords := Fin kNumGraphicsPipelineDirtyBits → Nat

/-- GraphicsPipelineTransitionMatch: two transitions match iff their dirty
bit sets are equal and, for every set dirty bit, the corresponding 4-byte
words of the two descriptions are equal.  Words outside the set bits are not
read by the loop. -/
def GraphicsPipelineTransitionMatch (bitsA bitsB : GraphicsPipelineTransitionBits)
    (descA descB : GraphicsPipelineDescWords) : Bool :=
  if bitsA ≠ bitsB then false
  else decide (∀ i ∈ bitsA, descA i = descB i)

/-- GraphicsPipelineTransition: a recorded transition of a PipelineHelper.
The target PipelineHelper pointer is modelled as a numeric identifier. -/
structure GraphicsPipelineTransition where
  bits : GraphicsPipelineTransitionBits
  desc : GraphicsPipelineDescWords
  target : Nat
deriving DecidableEq

/-- PipelineHelper::findTransition: linear scan over the recorded
transitions, returning the target of the first transition that matches the
probe bits and description. -/
def findTransition (transitions : List GraphicsPipelineTransition)
    (bits : GraphicsPipelineTransitionBits) (desc : GraphicsPipelineDescWords) :
    Option Nat :=
  match transitions with
  | [] => none
  | t :: rest =>
    if GraphicsPipelineTransitionMatch t.bits bits t.desc desc then some t.target
    else findTransition rest bits desc

/-- The match function is true exactly when the bit sets are equal and the
flagged words agree. -/
theorem transitionMatch_iff (bitsA bitsB : GraphicsPipelineTransitionBits)
    (descA descB : GraphicsPipelineDescWords) :
    GraphicsPipelineTransitionMatch bitsA bitsB descA descB = true ↔
      bitsA = bitsB ∧ ∀ i ∈ bitsB, descA i = descB i := by
  unfold GraphicsPipelineTransitionMatch
  by_cases h : bitsA = bitsB
  · subst h
    simp
  · simp [h]

/-- C1: findTransition returns a target exactly when some recorded transition
has the probe's dirty-bit set and agrees with the probe description on every
flagged 4-byte range; the returned target always belongs to such a matching
transition; and the match predicate never depends on words outside the
flagged ranges (changing unflagged words cannot change its outcome). -/
theorem findTransition_spec (transitions : List GraphicsPipelineTransition)
    (bits : GraphicsPipelineTransitionBits) (desc : GraphicsPipelineDescWords) :
    (∀ p, findTransition transitions bits desc = some p →
      ∃ t ∈ transitions, t.target = p ∧ t.bits = bits ∧ ∀ i ∈ bits, t.desc i = desc i) ∧
    ((∃ t ∈ transitions, t.bits = bits ∧ ∀ i ∈ bits, t.desc i = desc i) →
      findTransition transitions bits desc ≠ none) ∧
    (∀ t : GraphicsPipelineTransition, ∀ descB : GraphicsPipelineDescWords,
      (∀ i ∈ bits, desc i = descB i) →
      GraphicsPipelineTransitionMatch t.bits bits t.desc desc =
        GraphicsPipelineTransitionMatch t.bits bits t.desc descB) := by
  refine ⟨?_, ?_, ?_⟩
  · intro p hp
    induction transitions with
    | nil => simp [findTransition] at hp
    | cons t rest ih =>
      by_cases hmatch : GraphicsPipelineTransitionMatch t.bits bits t.desc desc = true
      · rw [findTransition, if_pos hmatch] at hp
        obtain ⟨hbits, hwords⟩ := (transitionMatch_iff t.bits bits t.desc desc).mp hmatch
        exact ⟨t, List.mem_cons_self t rest, Option.some_injective _ hp, hbits, hwords⟩
      · rw [findTransition, if_neg hmatch] at hp
        obtain ⟨u, hu, rest2⟩ := ih hp
        exact ⟨u, List.mem_cons_of_mem t hu, rest2⟩
  · rintro ⟨t, ht, hbits, hwords⟩
    induction transitions with
    | nil => simp at ht
    | cons u rest ih =>
      rcases List.mem_cons.mp ht with rfl | hmem
      · have hmatch : GraphicsPipelineTransitionMatch t.bits bits t.desc desc = true :=
          (transitionMatch_iff t.bits bits t.desc desc).mpr ⟨hbits, hwords⟩
        simp [findTransition, hmatch]
      · by_cases hmatch : GraphicsPipelineTransitionMatch u.bits bits u.desc desc = true
        · simp [findTransition, hmatch]
        · rw [findTransition, if_neg hmatch]
          exact ih hmem
  · intro t descB hagree
    by_cases hbits : t.bits = bits
    · subst hbits
      have hiff : (∀ i ∈ t.bits, t.desc i = desc i) ↔
          (∀ i ∈ t.bits, t.desc i = descB i) := by
        constructor
        · intro h i hi
          exact (h i hi).trans (hagree i hi)
        · intro h i hi
          exact (h i hi).trans (hagree i hi).symm
      unfold GraphicsPipelineTransitionMatch
      rw [if_neg (fun h => h rfl), if_neg (fun h => h rfl)]
      exact decide_eq_decide.mpr hiff
    · unfold GraphicsPipelineTransitionMatch
      rw [if_pos hbits, if_pos hbits]

/-- The dirty bit count is nonzero (it is 63), so Fin numerals exist. -/
instance : NeZero kNumGraphicsPipelineDirtyBits := ⟨by decide⟩

/-- Witness for findTransition_spec: a one-transition list whose recorded
dirty bit 0 and word 0 agree with the probe, so findTransition succeeds. -/
theorem findTransition_spec_witness :
    findTransition
      [GraphicsPipelineTransition.mk {0} (fun _ => 7) 42] {0} (fun _ => 7) ≠ none :=
  (findTransition_spec [GraphicsPipelineTransition.mk {0} (fun _ => 7) 42]
      {0} (fun _ => 7)).2.1
    ⟨GraphicsPipelineTransition.mk {0} (fun _ => 7) 42, by simp, rfl, fun i _ => rfl⟩

/-- gl::IMPLEMENTATION_MAX_DRAW_BUFFERS. -/
def kMaxDrawBuffers : Nat := 8

/-- kMaxFramebufferNonResolveAttachments = max draw buffers + 1: the length
of the mAttachmentFormats byte array of RenderPassDesc. -/
def kMaxFramebufferNonResolveAttachments : Nat := kMaxDrawBuffers + 1

/-- kDepthStencilFormatStorageMask: the depth/stencil format occupies the
low 3 bits of the last attachment format byte. -/
def kDepthStencilFormatStorageMask : Nat := 0x7

/-- RenderPassDesc: the packed render pass description.  Field for field as
in the header: a 3-bit log2 sample count, a 4-bit color attachment range, a
1-bit framebuffer fetch flag (together one byte), two one-byte draw-buffer
masks, and nine attachment format bytes.  Total size 12 bytes. -/
structure RenderPassDesc where
  logSamples : Nat
  colorAttachmentRange : Nat
  hasFramebufferFetch : Bool
  colorResolveAttachmentMask : Nat
  colorUnresolveAttachmentMask : Nat
  attachmentFormats : Fin 9 → Nat
deriving DecidableEq

/-- RenderPassDesc::depthStencilAttachmentIndex: the depth/stencil format is
packed right after the color attachment range. -/
def RenderPassDesc.depthStencilAttachmentIndex (d : RenderPassDesc) : Nat :=
  d.colorAttachmentRange

/-- RenderPassDesc subscript operator: reads an attachment format byte; at
or beyond the depth/stencil index the byte is masked with
kDepthStencilFormatStorageMask because its upper 5 bits hold flags. -/
def RenderPassDesc.formatAt (d : RenderPassDesc) (i : Fin 9) : Nat :=
  let format := d.attachmentFormats i
  if d.depthStencilAttachmentIndex ≤ (i : Nat) then format % 8 else format

/-- Modelled from the spec: RenderPassDesc::isColorAttachmentEnabled (body
in the missing vk_cache_utils.cpp) reports whether a GL color attachment
slot is enabled, i.e. whether its packed format is not the NONE sentinel
(format code 0 marks a disabled slot). -/
def RenderPassDesc.isColorAttachmentEnabled (d : RenderPassDesc) (i : Fin 9) : Bool :=
  decide (d.formatAt i ≠ 0)

/-- Modelled from the spec: the RenderPassDesc default constructor (body in
the missing vk_cache_utils.cpp) produces the canonical empty state with all
bytes zero. -/
def defaultRenderPassDesc : RenderPassDesc :=
  RenderPassDesc.mk 0 0 false 0 0 (fun _ => 0)

/-- Modelled from the spec: RenderPassDesc::packColorAttachment (body in the
missing vk_cache_utils.cpp) stores the format code of an enabled GL color
attachment in its byte (uint8 truncation as in SetBitField) and extends the
color attachment range to cover the index. -/
def RenderPassDesc.packColorAttachment (d : RenderPassDesc) (colorIndexGL : Fin 9)
    (formatID : Nat) : RenderPassDesc :=
  { d with
    attachmentFormats := Function.update d.attachmentFormats colorIndexGL (formatID % 256)
    colorAttachmentRange := max d.colorAttachmentRange ((colorIndexGL : Nat) + 1) }

/-- Modelled from the spec: RenderPassDesc::packColorAttachmentGap (body in
the missing vk_cache_utils.cpp) marks a GL color attachment index as
disabled by storing the NONE format sentinel (0), keeping the gap inside the
color attachment range. -/
def RenderPassDesc.packColorAttachmentGap (d : RenderPassDesc) (colorIndexGL : Fin 9) :
    RenderPassDesc :=
  { d with
    attachmentFormats := Function.update d.attachmentFormats colorIndexGL 0
    colorAttachmentRange := max d.colorAttachmentRange ((colorIndexGL : Nat) + 1) }

/-- Modelled from the spec: RenderPassDesc::hasDepthStencilAttachment reads
the format byte at the depth/stencil index (masked to its 3 format bits) and
compares it against the NONE sentinel. -/
def RenderPassDesc.hasDepthStencilAttachment (d : RenderPassDesc) : Bool :=
  if h : d.colorAttachmentRange < 9 then
    decide (d.formatAt ⟨d.colorAttachmentRange, h⟩ ≠ 0)
  else false

/-- RenderPassDesc::hasDepthStencilResolveAttachment: tests the
kResolveDepthStencilFlag bit (0x40) of the last attachment format byte. -/
def RenderPassDesc.hasDepthStencilResolveAttachment (d : RenderPassDesc) : Bool :=
  (d.attachmentFormats 8).testBit 6

/-- RenderPassDesc::hasColorResolveAttachment: tests the per-attachment bit
of the color resolve mask. -/
def RenderPassDesc.hasColorResolveAttachment (d : RenderPassDesc) (i : Fin 8) : Bool :=
  d.colorResolveAttachmentMask.testBit (i : Nat)

/-- Modelled from the spec: RenderPassDesc::attachmentCount (body in the
missing vk_cache_utils.cpp) returns the number of attachments of the
resulting Vulkan render pass: the enabled color attachments inside the color
attachment range (disabled slots removed), their resolve attachments, and
the depth/stencil attachment and its resolve attachment when present. -/
def RenderPassDesc.attachmentCount (d : RenderPassDesc) : Nat :=
  (Finset.univ.filter fun i : Fin 9 =>
    (i : Nat) < d.colorAttachmentRange ∧ d.isColorAttachmentEnabled i = true).card +
  (Finset.univ.filter fun i : Fin 8 => d.hasColorResolveAttachment i = true).card +
  (if d.hasDepthStencilAttachment then 1 else 0) +
  (if d.hasDepthStencilResolveAttachment then 1 else 0)

/-- Well-formedness of a RenderPassDesc as produced by its mutators: format
bytes strictly below the last slot (indices 0 to 7) that lie at or beyond
the color attachment range hold either the NONE sentinel or a depth/stencil
format code, all of which fit in the 3 format bits.  The last byte (index 8)
is exempt: the header mutators updateRenderToTexture, setWriteControlMode
and the depth/stencil resolve/unresolve packers store flags in its upper 5
bits, so it may hold any byte; the flags bytes never appear below index 8
because those mutators write only to the back of the array. -/
def renderPassDescWF (d : RenderPassDesc) : Prop :=
  ∀ j : Fin 9, (j : Nat) < 8 → d.colorAttachmentRange ≤ (j : Nat) →
    d.attachmentFormats j < 8

/-- C6: packing a color attachment at a valid index with a real (nonzero,
byte-sized) format makes that index report enabled; every other index keeps
the exact value it reported before the call.  The well-formedness hypothesis
constrains only the bytes below the flags slot at or beyond the color
attachment range to 3-bit codes, which every mutator-reachable state
satisfies; the last byte may carry arbitrary flag bits and its reported
value is preserved unconditionally, because with a valid index the range
stays at most 8 and that byte is masked both before and after the call. -/
theorem packColorAttachment_roundtrip (d : RenderPassDesc) (i : Fin 9) (f : Nat)
    (hi : (i : Nat) < 8) (hf0 : f ≠ 0) (hf : f < 256) (hwf : renderPassDescWF d) :
    (d.packColorAttachment i f).isColorAttachmentEnabled i = true ∧
    (∀ j : Fin 9, j ≠ i →
      (d.packColorAttachment i f).isColorAttachmentEnabled j =
        d.isColorAttachmentEnabled j) := by
  have hfmod : f % 256 = f := Nat.mod_eq_of_lt hf
  constructor
  · have hlt : (i : Nat) < max d.colorAttachmentRange ((i : Nat) + 1) := by
      have := Nat.le_max_right d.colorAttachmentRange ((i : Nat) + 1)
      omega
    simp only [RenderPassDesc.isColorAttachmentEnabled, RenderPassDesc.formatAt,
      RenderPassDesc.packColorAttachment, RenderPassDesc.depthStencilAttachmentIndex,
      Function.update_same]
    rw [if_neg (by omega)]
    simpa [hfmod] using hf0
  · intro j hj
    have hval : Function.update d.attachmentFormats i (f % 256) j = d.attachmentFormats j :=
      Function.update_noteq hj (f % 256) d.attachmentFormats
    simp only [RenderPassDesc.isColorAttachmentEnabled, RenderPassDesc.formatAt,
      RenderPassDesc.packColorAttachment, RenderPassDesc.depthStencilAttachmentIndex, hval]
    by_cases hrange : d.colorAttachmentRange ≤ (j : Nat)
    · by_cases hj8 : (j : Nat) < 8
      · have hsmall : d.attachmentFormats j < 8 := hwf j hj8 hrange
        have hmask : d.attachmentFormats j % 8 = d.attachmentFormats j :=
          Nat.mod_eq_of_lt hsmall
        by_cases hrange2 : max d.colorAttachmentRange ((i : Nat) + 1) ≤ (j : Nat)
        · simp [hrange, hrange2]
        · simp [hrange, hrange2, hmask]
      · have hrange2 : max d.colorAttachmentRange ((i : Nat) + 1) ≤ (j : Nat) :=
          Nat.max_le.mpr ⟨hrange, by omega⟩
        simp [hrange, hrange2]
    · have hrange2 : ¬ max d.colorAttachmentRange ((i : Nat) + 1) ≤ (j : Nat) := by
        have := Nat.le_max_left d.colorAttachmentRange ((i : Nat) + 1)
        omega
      simp [hrange, hrange2]

/-- Witness for packColorAttachment_roundtrip: packing format 5 at index 2
of an otherwise empty description whose last byte carries the
render-to-texture flag (0x80) enables index 2 and leaves every other index
as it was. -/
theorem packColorAttachment_roundtrip_witness :
    ((RenderPassDesc.mk 0 0 false 0 0 (fun j => if (j : Nat) = 8 then 128 else 0)
        ).packColorAttachment 2 5).isColorAttachmentEnabled 2 = true ∧
    (∀ j : Fin 9, j ≠ 2 →
      ((RenderPassDesc.mk 0 0 false 0 0 (fun j => if (j : Nat) = 8 then 128 else 0)
          ).packColorAttachment 2 5).isColorAttachmentEnabled j =
        (RenderPassDesc.mk 0 0 false 0 0 (fun j => if (j : Nat) = 8 then 128 else 0)
          ).isColorAttachmentEnabled j) :=
  packColorAttachment_roundtrip
    (RenderPassDesc.mk 0 0 false 0 0 (fun j => if (j : Nat) = 8 then 128 else 0))
    2 5 (by decide) (by decide) (by decide)
    (by
      intro j hj8 hj
      show (if (j : Nat) = 8 then 128 else 0) < 8
      rw [if_neg (by omega)]
      omega)

/-- C7: starting from a default-constructed RenderPassDesc, packing color
attachments at indices 0 and 2 and a gap at index 1 yields a color
attachment range of 3, reports index 1 disabled, and counts 2 attachments
(the disabled slot is excluded from the final count). -/
theorem renderPassDesc_gap_scenario (fa fb : Nat)
    (hfa0 : fa ≠ 0) (hfa : fa < 256) (hfb0 : fb ≠ 0) (hfb : fb < 256) :
    (((defaultRenderPassDesc.packColorAttachment 0 fa).packColorAttachment 2 fb
        ).packColorAttachmentGap 1).colorAttachmentRange = 3 ∧
    (((defaultRenderPassDesc.packColorAttachment 0 fa).packColorAttachment 2 fb
        ).packColorAttachmentGap 1).isColorAttachmentEnabled 1 = false ∧
    (((defaultRenderPassDesc.packColorAttachment 0 fa).packColorAttachment 2 fb
        ).packColorAttachmentGap 1).attachmentCount = 2 := by
  have hfa2 : fa % 256 = fa := Nat.mod_eq_of_lt hfa
  have hfb2 : fb % 256 = fb := Nat.mod_eq_of_lt hfb
  refine ⟨?_, ?_, ?_⟩
  · simp [defaultRenderPassDesc, RenderPassDesc.packColorAttachment,
      RenderPassDesc.packColorAttachmentGap]
  · simp [defaultRenderPassDesc, RenderPassDesc.packColorAttachment,
      RenderPassDesc.packColorAttachmentGap, RenderPassDesc.isColorAttachmentEnabled,
      RenderPassDesc.formatAt, RenderPassDesc.depthStencilAttachmentIndex,
      Function.update]
  · have hcolor : (Finset.univ.filter fun i : Fin 9 =>
        (i : Nat) < (((defaultRenderPassDesc.packColorAttachment 0 fa
          ).packColorAttachment 2 fb).packColorAttachmentGap 1).colorAttachmentRange ∧
        (((defaultRenderPassDesc.packColorAttachment 0 fa).packColorAttachment 2 fb
          ).packColorAttachmentGap 1).isColorAttachmentEnabled i = true) =
        ({0, 2} : Finset (Fin 9)) := by
      ext i
      fin_cases i <;>
        simp [defaultRenderPassDesc, RenderPassDesc.packColorAttachment,
          RenderPassDesc.packColorAttachmentGap, RenderPassDesc.isColorAttachmentEnabled,
          RenderPassDesc.formatAt, RenderPassDesc.depthStencilAttachmentIndex,
          Function.update, hfa2, hfb2, hfa0, hfb0]
    rw [RenderPassDesc.attachmentCount, hcolor]
    have hres : (Finset.univ.filter fun i : Fin 8 =>
        (((defaultRenderPassDesc.packColorAttachment 0 fa).packColorAttachment 2 fb
          ).packColorAttachmentGap 1).hasColorResolveAttachment i = true) =
        (∅ : Finset (Fin 8)) := by
      ext i
      simp [defaultRenderPassDesc, RenderPassDesc.packColorAttachment,
        RenderPassDesc.packColorAttachmentGap, RenderPassDesc.hasColorResolveAttachment,
        Nat.zero_testBit]
    rw [hres]
    have hds : (((defaultRenderPassDesc.packColorAttachment 0 fa
        ).packColorAttachment 2 fb).packColorAttachmentGap 1
        ).hasDepthStencilAttachment = false := by
      simp [defaultRenderPassDesc, RenderPassDesc.packColorAttachment,
        RenderPassDesc.packColorAttachmentGap, RenderPassDesc.hasDepthStencilAttachment,
        RenderPassDesc.formatAt, RenderPassDesc.depthStencilAttachmentIndex,
        Function.update]
    have hdsr : (((defaultRenderPassDesc.packColorAttachment 0 fa
        ).packColorAttachment 2 fb).packColorAttachmentGap 1
        ).hasDepthStencilResolveAttachment = false := by
      simp [defaultRenderPassDesc, RenderPassDesc.packColorAttachment,
        RenderPassDesc.packColorAttachmentGap,
        RenderPassDesc.hasDepthStencilResolveAttachment, Function.update,
        Nat.zero_testBit]
    rw [hds, hdsr]
    decide

/-- Witness for renderPassDesc_gap_scenario at format codes 1 and 2. -/
theorem renderPassDesc_gap_scenario_witness :
    (((defaultRenderPassDesc.packColorAttachment 0 1).packColorAttachment 2 2
        ).packColorAttachmentGap 1).colorAttachmentRange = 3 ∧
    (((defaultRenderPassDesc.packColorAttachment 0 1).packColorAttachment 2 2
        ).packColorAttachmentGap 1).isColorAttachmentEnabled 1 = false ∧
    (((defaultRenderPassDesc.packColorAttachment 0 1).packColorAttachment 2 2
        ).packColorAttachmentGap 1).attachmentCount = 2 :=
  renderPassDesc_gap_scenario 1 2 (by decide) (by decide) (by decide) (by decide)

/-- The exact 12-byte image of a RenderPassDesc, in declaration order: the
packed bitfield byte (3 bits of log samples, 4 bits of color attachment
range, 1 bit of framebuffer fetch), the two draw-buffer mask bytes, and the
nine attachment format bytes. -/
def RenderPassDesc.toBytes (d : RenderPassDesc) : List Nat :=
  (d.logSamples % 8 + d.colorAttachmentRange % 16 * 8 +
      (if d.hasFramebufferFetch then 128 else 0)) ::
  d.colorResolveAttachmentMask % 256 ::
  d.colorUnresolveAttachmentMask % 256 ::
  List.ofFn (fun i : Fin 9 => d.attachmentFormats i % 256)

/-- Modelled from the spec: operator== of RenderPassDesc (body in the
missing vk_cache_utils.cpp) is a bitwise comparison (memcmp) of the two
12-byte images. -/
def renderPassDescEq (d1 d2 : RenderPassDesc) : Bool :=
  decide (d1.toBytes = d2.toBytes)

/-- Modelled from the spec: RenderPassDesc::hash (body in the missing
vk_cache_utils.cpp) is a deterministic hash computed over the exact byte
image of the descriptor, with uint64 arithmetic. -/
def renderPassDescHash (d : RenderPassDesc) : Nat :=
  d.toBytes.foldl (fun h b => (h * 131 + b) % kUint64Modulus) 16777619

/-- The word image of a GraphicsPipelineDesc, read as the list of its
kNumGraphicsPipelineDirtyBits 32-bit words (uint32 values). -/
def gpDescWordList (g : GraphicsPipelineDescWords) : List Nat :=
  List.ofFn (fun i : Fin kNumGraphicsPipelineDirtyBits => g i % 2 ^ 32)

/-- Modelled from the spec: GraphicsPipelineDesc::operator== (body in the
missing vk_cache_utils.cpp) is a bitwise comparison (memcmp) of the two
byte images, here at the word granularity of the model. -/
def gpDescEq (g1 g2 : GraphicsPipelineDescWords) : Bool :=
  decide (gpDescWordList g1 = gpDescWordList g2)

/-- Modelled from the spec: GraphicsPipelineDesc::hash (body in the missing
vk_cache_utils.cpp) is a deterministic hash over the exact byte image. -/
def gpDescHash (g : GraphicsPipelineDescWords) : Nat :=
  (gpDescWordList g).foldl (fun h b => (h * 131 + b) % kUint64Modulus) 16777619

/-- C5: for the packed descriptor types, equality of two values holds
exactly when their byte images are identical, and equal values always hash
equally (the hash is a function of the byte image alone). -/
theorem descriptor_bitwise_eq_hash :
    (∀ d1 d2 : RenderPassDesc,
      (renderPassDescEq d1 d2 = true ↔ d1.toBytes = d2.toBytes) ∧
      (renderPassDescEq d1 d2 = true → renderPassDescHash d1 = renderPassDescHash d2)) ∧
    (∀ g1 g2 : GraphicsPipelineDescWords,
      (gpDescEq g1 g2 = true ↔ gpDescWordList g1 = gpDescWordList g2) ∧
      (gpDescEq g1 g2 = true → gpDescHash g1 = gpDescHash g2)) := by
  constructor
  · intro d1 d2
    constructor
    · exact decide_eq_true_iff
    · intro h
      have hb : d1.toBytes = d2.toBytes :=
        decide_eq_true_iff.mp h
      unfold renderPassDescHash
      rw [hb]
  · intro g1 g2
    constructor
    · exact decide_eq_true_iff
    · intro h
      have hb : gpDescWordList g1 = gpDescWordList g2 :=
        decide_eq_true_iff.mp h
      unfold gpDescHash
      rw [hb]

/-- Witness for descriptor_bitwise_eq_hash at the default RenderPassDesc:
identical byte images compare equal and hash equally. -/
theorem descriptor_bitwise_eq_hash_witness :
    renderPassDescEq defaultRenderPassDesc defaultRenderPassDesc = true ∧
    renderPassDescHash defaultRenderPassDesc = renderPassDescHash defaultRenderPassDesc :=
  ⟨((descriptor_bitwise_eq_hash.1 defaultRenderPassDesc defaultRenderPassDesc).1).mpr rfl,
   (descriptor_bitwise_eq_hash.1 defaultRenderPassDesc defaultRenderPassDesc).2
     (((descriptor_bitwise_eq_hash.1 defaultRenderPassDesc defaultRenderPassDesc).1).mpr rfl)⟩

/-- AttachmentOpsArray: the packed per-attachment load/store ops that key
the inner level of the render pass cache.  Its packed content is opaque to
getCompatibleRenderPass (which never reads it), so the model keeps it as a
single packed value with decidable equality. -/
structure AttachmentOpsArray where
  ops : Nat
deriving DecidableEq

/-- RenderPassHelper: owns one native render pass, modelled by its numeric
handle. -/
structure RenderPassHelper where
  renderPass : Nat
deriving DecidableEq

/-- The inner level of the two-level render pass cache: attachment ops to
render pass helper. -/
abbrev InnerCache := List (AttachmentOpsArray × RenderPassHelper)

/-- RenderPassCache: outer map keyed on the compatible RenderPassDesc, each
bucket an inner map keyed on the attachment ops, plus the two counters. -/
structure RenderPassCache where
  payload : List (RenderPassDesc × InnerCache)
  compatibleRenderPassCacheStats : CacheStats
  renderPassWithOpsCacheStats : CacheStats

/-- Modelled from the spec: RenderPassCache::addRenderPass (body in the
missing vk_cache_utils.cpp) runs on the compatible-lookup miss path; it
creates a new render pass for the description (the factory result is the
newHelper argument, with default ops) and stores it as the single inner
entry of a fresh outer bucket, returning the new render pass. -/
def addRenderPass (c : RenderPassCache) (desc : RenderPassDesc)
    (defaultOps : AttachmentOpsArray) (newHelper : RenderPassHelper) :
    Option Nat × RenderPassCache :=
  (some newHelper.renderPass,
   { c with payload := (desc, [(defaultOps, newHelper)]) :: c.payload })

/-- RenderPassCache::getCompatibleRenderPass: finds the outer bucket of the
compatible description; on a find() hit it asserts the inner cache nonempty,
returns the render pass of the first inner entry, and counts a hit; only
when no outer key matches does it count a miss and call addRenderPass. -/
def getCompatibleRenderPass (c : RenderPassCache) (desc : RenderPassDesc)
    (defaultOps : AttachmentOpsArray) (newHelper : RenderPassHelper) :
    Option Nat × RenderPassCache :=
  match lookupEntry desc c.payload with
  | some inner =>
    match inner with
    | entry :: _ =>
      (some entry.2.renderPass,
       { c with compatibleRenderPassCacheStats := c.compatibleRenderPassCacheStats.hit })
    | [] => (none, c)
  | none =>
    addRenderPass
      { c with compatibleRenderPassCacheStats := c.compatibleRenderPassCacheStats.miss }
      desc defaultOps newHelper

/-- C4: when the compatible description matches an outer key,
getCompatibleRenderPass records a hit and returns the first inner entry of
that bucket, whatever the attachment ops of the inner entries are, and never
fails or misses; only when no outer key matches does it record a miss and
create (and insert) a new render pass.  The overflow hypotheses state that
the uint64 counter increments do not wrap. -/
theorem getCompatibleRenderPass_spec (c : RenderPassCache) (desc : RenderPassDesc)
    (defaultOps : AttachmentOpsArray) (newHelper : RenderPassHelper)
    (hh : c.compatibleRenderPassCacheStats.hitCount + 1 < kUint64Modulus)
    (hm : c.compatibleRenderPassCacheStats.missCount + 1 < kUint64Modulus) :
    (∀ entry : AttachmentOpsArray × RenderPassHelper, ∀ rest : InnerCache,
      lookupEntry desc c.payload = some (entry :: rest) →
      (getCompatibleRenderPass c desc defaultOps newHelper).1 =
          some entry.2.renderPass ∧
      (getCompatibleRenderPass c desc defaultOps newHelper).2.payload = c.payload ∧
      (getCompatibleRenderPass c desc defaultOps newHelper
        ).2.compatibleRenderPassCacheStats.hitCount =
        c.compatibleRenderPassCacheStats.hitCount + 1 ∧
      (getCompatibleRenderPass c desc defaultOps newHelper
        ).2.compatibleRenderPassCacheStats.missCount =
        c.compatibleRenderPassCacheStats.missCount) ∧
    (lookupEntry desc c.payload = none →
      (getCompatibleRenderPass c desc defaultOps newHelper).1 =
          some newHelper.renderPass ∧
      (getCompatibleRenderPass c desc defaultOps newHelper).2.payload =
        (desc, [(defaultOps, newHelper)]) :: c.payload ∧
      (getCompatibleRenderPass c desc defaultOps newHelper
        ).2.compatibleRenderPassCacheStats.missCount =
        c.compatibleRenderPassCacheStats.missCount + 1 ∧
      (getCompatibleRenderPass c desc defaultOps newHelper
        ).2.compatibleRenderPassCacheStats.hitCount =
        c.compatibleRenderPassCacheStats.hitCount) := by
  constructor
  · intro entry rest hfound
    refine ⟨?_, ?_, ?_, ?_⟩ <;>
      simp [getCompatibleRenderPass, hfound, CacheStats.hit, Nat.mod_eq_of_lt hh]
  · intro hnone
    refine ⟨?_, ?_, ?_, ?_⟩ <;>
      simp [getCompatibleRenderPass, addRenderPass, hnone, CacheStats.miss,
        Nat.mod_eq_of_lt hm]

/-- Witness for getCompatibleRenderPass_spec: a cache with one outer bucket
containing two inner entries with different ops; the probe returns the first
inner entry and counts a hit. -/
theorem getCompatibleRenderPass_spec_witness :
    (getCompatibleRenderPass
      (RenderPassCache.mk
        [(defaultRenderPassDesc,
          [(AttachmentOpsArray.mk 1, RenderPassHelper.mk 100),
           (AttachmentOpsArray.mk 2, RenderPassHelper.mk 200)])]
        (CacheStats.mk 0 0) (CacheStats.mk 0 0))
      defaultRenderPassDesc (AttachmentOpsArray.mk 0) (RenderPassHelper.mk 300)).1 =
      some 100 ∧
    (getCompatibleRenderPass
      (RenderPassCache.mk
        [(defaultRenderPassDesc,
          [(AttachmentOpsArray.mk 1, RenderPassHelper.mk 100),
           (AttachmentOpsArray.mk 2, RenderPassHelper.mk 200)])]
        (CacheStats.mk 0 0) (CacheStats.mk 0 0))
      defaultRenderPassDesc (AttachmentOpsArray.mk 0) (RenderPassHelper.mk 300)
      ).2.compatibleRenderPassCacheStats.hitCount = 0 + 1 := by
  have h := (getCompatibleRenderPass_spec
      (RenderPassCache.mk
        [(defaultRenderPassDesc,
          [(AttachmentOpsArray.mk 1, RenderPassHelper.mk 100),
           (AttachmentOpsArray.mk 2, RenderPassHelper.mk 200)])]
        (CacheStats.mk 0 0) (CacheStats.mk 0 0))
      defaultRenderPassDesc (AttachmentOpsArray.mk 0) (RenderPassHelper.mk 300)
      (by norm_num [kUint64Modulus]) (by norm_num [kUint64Modulus])).1
      (AttachmentOpsArray.mk 1, RenderPassHelper.mk 100)
      [(AttachmentOpsArray.mk 2, RenderPassHelper.mk 200)]
      (by simp [lookupEntry])
  exact ⟨h.1, h.2.2.1⟩

/-- The bit width of the packed scissor x field (uint16). -/
def kPackedScissorFieldBits : Nat := 16

/-- kDynamicScissorSentinel: the invalid value for PackedScissor.x that
marks the scissor as a dynamic state, defined in the header as the numeric
limit (maximum) of the uint16 field type. -/
def kDynamicScissorSentinel : Nat := 2 ^ kPackedScissorFieldBits - 1

/-- PackedScissor: four uint16 fields. -/
structure PackedScissor where
  x : Nat
  y : Nat
  width : Nat
  height : Nat
deriving DecidableEq

/-- A scissor mutation of a GraphicsPipelineDesc: either setDynamicScissor,
or setScissor and updateScissor with a rectangle. -/
inductive ScissorOp where
  | setDynamicScissor : ScissorOp
  | setScissor (x y width height : Nat) : ScissorOp
deriving DecidableEq

/-- Modelled from the spec: GraphicsPipelineDesc::setDynamicScissor (body in
the missing vk_cache_utils.cpp) stores the sentinel in the x field (marking
the scissor as dynamic, not baked into the pipeline object), while
setScissor and updateScissor pack the rectangle coordinates into the uint16
fields. -/
def applyScissorOp (s : PackedScissor) : ScissorOp → PackedScissor
  | ScissorOp.setDynamicScissor => PackedScissor.mk kDynamicScissorSentinel 0 0 0
  | ScissorOp.setScissor x y w h =>
      PackedScissor.mk (x % 2 ^ 16) (y % 2 ^ 16) (w % 2 ^ 16) (h % 2 ^ 16)

/-- Whether the packed scissor reads back as dynamic: its x field holds the
sentinel. -/
def scissorIsDynamic (s : PackedScissor) : Bool :=
  decide (s.x = kDynamicScissorSentinel)

/-- A real scissor mutation: setScissor and updateScissor are only called
with rectangles whose x coordinate is below the sentinel (every coordinate
the program stores); setDynamicScissor is always allowed. -/
def isRealScissorOp : ScissorOp → Bool
  | ScissorOp.setDynamicScissor => true
  | ScissorOp.setScissor x _ _ _ => decide (x < kDynamicScissorSentinel)

/-- C8: the sentinel equals the maximum representable value of the 16-bit
packed scissor x field, and after any nonempty sequence of real scissor
mutations the scissor reads back as dynamic exactly when the last mutation
was setDynamicScissor: a real rectangle never produces the sentinel. -/
theorem dynamicScissorSentinel_spec (init : PackedScissor) (ops : List ScissorOp)
    (hne : ops ≠ []) (hreal : ∀ op ∈ ops, isRealScissorOp op = true) :
    kDynamicScissorSentinel = 2 ^ 16 - 1 ∧
    (scissorIsDynamic (ops.foldl applyScissorOp init) = true ↔
      ops.getLast? = some ScissorOp.setDynamicScissor) := by
  refine ⟨rfl, ?_⟩
  rcases List.eq_nil_or_concat ops with rfl | ⟨front, last, rfl⟩
  · exact absurd rfl hne
  · rw [List.concat_eq_append, List.foldl_append, List.getLast?_append,
      List.getLast?_singleton]
    cases last with
    | setDynamicScissor =>
      simp [applyScissorOp, scissorIsDynamic]
    | setScissor x y w h =>
      have hx : x < kDynamicScissorSentinel := by
        have := hreal (ScissorOp.setScissor x y w h) (by simp)
        simpa [isRealScissorOp] using this
      have hs : kDynamicScissorSentinel = 65535 := rfl
      have hp : (2 : Nat) ^ 16 = 65536 := by norm_num
      simp only [List.foldl_cons, List.foldl_nil, applyScissorOp, scissorIsDynamic,
        decide_eq_true_eq]
      constructor
      · intro hcontra
        exfalso
        omega
      · intro hcontra
        simp at hcontra

/-- Witness for dynamicScissorSentinel_spec: a real rectangle followed by
setDynamicScissor reads back as dynamic. -/
theorem dynamicScissorSentinel_spec_witness :
    kDynamicScissorSentinel = 2 ^ 16 - 1 ∧
    (scissorIsDynamic
        ([ScissorOp.setScissor 1 2 3 4, ScissorOp.setDynamicScissor].foldl
          applyScissorOp (PackedScissor.mk 0 0 0 0)) = true ↔
      [ScissorOp.setScissor 1 2 3 4, ScissorOp.setDynamicScissor].getLast? =
        some ScissorOp.setDynamicScissor) :=
  dynamicScissorSentinel_spec (PackedScissor.mk 0 0 0 0)
    [ScissorOp.setScissor 1 2 3 4, ScissorOp.setDynamicScissor]
    (by simp) (by decide)
